import Mathlib

/-!
Verification of the signed RPC call path of the yalla-mcp smart-home gateway.

The development shallowly embeds the Go source (`smh.go` and the companion
service file) into Lean. Pure functions (`calculateSignature`,
`calculateSignatureRequestBodyHash`, `genDeviceID`, `genAppID`, `md5Hash`)
become Lean functions over byte lists and strings; the effectful HTTP
exchange inside `httpPost` is modelled by passing the outcome of each effect
(JSON marshalling, request creation, the HTTP response and its envelope
decode) as explicit oracle inputs, so that the response-classification logic
of `httpPost`, `Post`, `CallService` and their callers (`SwitchHome`,
`RunScenes`, `GetHomes`) is embedded exactly.

The cryptographic primitives the source uses from the Go standard library
(SHA-256, SHA-1, MD5, HMAC-SHA-256, lowercase hex encoding) are implemented
here over `List Nat` bytes, following FIPS 180-4, RFC 1321 and RFC 2104, and
validated against the standard published test vectors below.
-/

/-- 2^32, the word modulus of all three hash functions. -/
def pow32 : Nat := 4294967296

/-- Truncate to a 32-bit word. -/
def mask32 (x : Nat) : Nat := x % 4294967296

/-- Rotate a 32-bit word left by `n` (0 < n < 32), input assumed < 2^32. -/
def rotl32 (n x : Nat) : Nat := ((x <<< n) % 4294967296) ||| (x >>> (32 - n))

/-- Rotate a 32-bit word right by `n` (0 < n < 32), input assumed < 2^32. -/
def rotr32 (n x : Nat) : Nat := (x >>> n) ||| ((x <<< (32 - n)) % 4294967296)

/-- Bitwise complement within 32 bits. -/
def not32 (x : Nat) : Nat := x ^^^ 4294967295

/-- Big-endian bytes of a 32-bit word. -/
def wordToBytesBE (w : Nat) : List Nat :=
  [w / 16777216 % 256, w / 65536 % 256, w / 256 % 256, w % 256]

/-- Little-endian bytes of a 32-bit word. -/
def wordToBytesLE (w : Nat) : List Nat :=
  [w % 256, w / 256 % 256, w / 65536 % 256, w / 16777216 % 256]

/-- Group bytes into big-endian 32-bit words. -/
def bytesToWordsBE : List Nat → List Nat
  | a :: b :: c :: d :: rest =>
      (a * 16777216 + b * 65536 + c * 256 + d) :: bytesToWordsBE rest
  | _ => []

/-- Group bytes into little-endian 32-bit words. -/
def bytesToWordsLE : List Nat → List Nat
  | a :: b :: c :: d :: rest =>
      (d * 16777216 + c * 65536 + b * 256 + a) :: bytesToWordsLE rest
  | _ => []

/-- Concatenate a list of byte lists. -/
def concatBytes (l : List (List Nat)) : List Nat :=
  l.foldr (fun a b => a ++ b) []

/-- Number of zero padding bytes for Merkle–Damgård strengthening with
64-byte blocks: after the 0x80 byte, fill so that 8 bytes remain to the
block boundary. -/
def padZeroCount (len : Nat) : Nat := (119 - len % 64) % 64

/-- Big-endian 8-byte encoding of the bit length (SHA-1 / SHA-256 padding). -/
def lenBytesBE (bits : Nat) : List Nat :=
  [bits >>> 56 % 256, bits >>> 48 % 256, bits >>> 40 % 256, bits >>> 32 % 256,
   bits >>> 24 % 256, bits >>> 16 % 256, bits >>> 8 % 256, bits % 256]

/-- Little-endian 8-byte encoding of the bit length (MD5 padding). -/
def lenBytesLE (bits : Nat) : List Nat :=
  [bits % 256, bits >>> 8 % 256, bits >>> 16 % 256, bits >>> 24 % 256,
   bits >>> 32 % 256, bits >>> 40 % 256, bits >>> 48 % 256, bits >>> 56 % 256]

/-- Split a byte list into 64-byte blocks; fuel-driven so the recursion is
structural (the fuel `n` always suffices when `n ≥ l.length`). -/
def chunks64Aux : Nat → List Nat → List (List Nat)
  | 0, _ => []
  | n + 1, l => if l.isEmpty then [] else l.take 64 :: chunks64Aux n (l.drop 64)

/-- Split a byte list into 64-byte blocks. -/
def chunks64 (l : List Nat) : List (List Nat) := chunks64Aux l.length l

/-- The SHA-256 round constants (FIPS 180-4 §4.2.2), in decimal. -/
def sha256K : List Nat :=
  [1116352408, 1899447441, 3049323471, 3921009573, 961987163, 1508970993,
   2453635748, 2870763221, 3624381080, 310598401, 607225278, 1426881987,
   1925078388, 2162078206, 2614888103, 3248222580, 3835390401, 4022224774,
   264347078, 604807628, 770255983, 1249150122, 1555081692, 1996064986,
   2554220882, 2821834349, 2952996808, 3210313671, 3336571891, 3584528711,
   113926993, 338241895, 666307205, 773529912, 1294757372, 1396182291,
   1695183700, 1986661051, 2177026350, 2456956037, 2730485921, 2820302411,
   3259730800, 3345764771, 3516065817, 3600352804, 4094571909, 275423344,
   430227734, 506948616, 659060556, 883997877, 958139571, 1322822218,
   1537002063, 1747873779, 1955562222, 2024104815, 2227730452, 2361852424,
   2428436474, 2756734187, 3204031479, 3329325298]

/-- The SHA-256 initial hash value (FIPS 180-4 §5.3.3), in decimal. -/
def sha256InitH : List Nat :=
  [1779033703, 3144134277, 1013904242, 2773480762,
   1359893119, 2600822924, 528734635, 1541459225]

/-- Extend a 16-word SHA-256 block to the 64-word message schedule. -/
def sha256Schedule (block : List Nat) : List Nat :=
  (List.range 64).foldl
    (fun w t =>
      if t < 16 then w ++ [block.getD t 0]
      else
        let w15 := w.getD (t - 15) 0
        let w2 := w.getD (t - 2) 0
        let s0 := rotr32 7 w15 ^^^ rotr32 18 w15 ^^^ (w15 >>> 3)
        let s1 := rotr32 17 w2 ^^^ rotr32 19 w2 ^^^ (w2 >>> 10)
        w ++ [mask32 (w.getD (t - 16) 0 + s0 + w.getD (t - 7) 0 + s1)])
    []

/-- One SHA-256 compression step over the eight working words. -/
def sha256Round (w : List Nat) (s : List Nat) (t : Nat) : List Nat :=
  match s with
  | [a, b, c, d, e, f, g, h8] =>
    let bigS1 := rotr32 6 e ^^^ rotr32 11 e ^^^ rotr32 25 e
    let ch := (e &&& f) ^^^ (not32 e &&& g)
    let t1 := mask32 (h8 + bigS1 + ch + sha256K.getD t 0 + w.getD t 0)
    let bigS0 := rotr32 2 a ^^^ rotr32 13 a ^^^ rotr32 22 a
    let mj := (a &&& b) ^^^ (a &&& c) ^^^ (b &&& c)
    let t2 := mask32 (bigS0 + mj)
    [mask32 (t1 + t2), a, b, c, mask32 (d + t1), e, f, g]
  | _ => s

/-- SHA-256 compression of one 64-byte block into the chaining state. -/
def sha256Compress (h : List Nat) (block : List Nat) : List Nat :=
  let w := sha256Schedule (bytesToWordsBE block)
  let s := (List.range 64).foldl (sha256Round w) h
  (List.range 8).map (fun i => mask32 (h.getD i 0 + s.getD i 0))

/-- SHA-256 of a byte list (FIPS 180-4). -/
def sha256 (msg : List Nat) : List Nat :=
  let padded := msg ++ 0x80 :: (List.replicate (padZeroCount msg.length) 0 ++ lenBytesBE (8 * msg.length))
  concatBytes (((chunks64 padded).foldl sha256Compress sha256InitH).map wordToBytesBE)

/-- Lowercase hex digit, matching Go's `encoding/hex`. -/
def hexDigit (n : Nat) : Char :=
  if n < 10 then Char.ofNat (48 + n) else Char.ofNat (87 + n)

/-- Lowercase hex encoding of a byte list, matching Go's
`hex.EncodeToString`. -/
def hexEncode (bytes : List Nat) : String :=
  String.mk ((bytes.map (fun b => [hexDigit (b / 16 % 16), hexDigit (b % 16)])).foldr (fun a b => a ++ b) [])

/-- UTF-8 bytes of one character, as Go's `[]byte(string)` produces them. -/
def utf8EncodeChar (c : Char) : List Nat :=
  let n := c.toNat
  if n < 0x80 then [n]
  else if n < 0x800 then [0xC0 + n / 64, 0x80 + n % 64]
  else if n < 0x10000 then [0xE0 + n / 4096, 0x80 + n / 64 % 64, 0x80 + n % 64]
  else [0xF0 + n / 262144, 0x80 + n / 4096 % 64, 0x80 + n / 64 % 64, 0x80 + n % 64]

/-- UTF-8 bytes of a string, as Go's `[]byte(string)` produces them. -/
def strBytes (s : String) : List Nat :=
  concatBytes (s.data.map utf8EncodeChar)

/-- The SHA-1 initial hash value (FIPS 180-4 §5.3.1), in decimal. -/
def sha1InitH : List Nat :=
  [1732584193, 4023233417, 2562383102, 271733878, 3285377520]

/-- Extend a 16-word SHA-1 block to the 80-word message schedule. -/
def sha1Schedule (block : List Nat) : List Nat :=
  (List.range 80).foldl
    (fun w t =>
      if t < 16 then w ++ [block.getD t 0]
      else
        w ++ [rotl32 1 (w.getD (t - 3) 0 ^^^ w.getD (t - 8) 0 ^^^ w.getD (t - 14) 0 ^^^ w.getD (t - 16) 0)])
    []

/-- The SHA-1 round function f_t (FIPS 180-4 §4.1.1). -/
def sha1F (t b c d : Nat) : Nat :=
  if t < 20 then (b &&& c) ||| (not32 b &&& d)
  else if t < 40 then b ^^^ c ^^^ d
  else if t < 60 then (b &&& c) ||| (b &&& d) ||| (c &&& d)
  else b ^^^ c ^^^ d

/-- The SHA-1 round constant K_t (FIPS 180-4 §4.2.1), in decimal. -/
def sha1KAt (t : Nat) : Nat :=
  if t < 20 then 1518500249
  else if t < 40 then 1859775393
  else if t < 60 then 2400959708
  else 3395469782

/-- One SHA-1 compression step over the five working words. -/
def sha1Round (w : List Nat) (s : List Nat) (t : Nat) : List Nat :=
  match s with
  | [a, b, c, d, e] =>
    let temp := mask32 (rotl32 5 a + sha1F t b c d + e + sha1KAt t + w.getD t 0)
    [temp, a, rotl32 30 b, c, d]
  | _ => s

/-- SHA-1 compression of one 64-byte block into the chaining state. -/
def sha1Compress (h : List Nat) (block : List Nat) : List Nat :=
  let w := sha1Schedule (bytesToWordsBE block)
  let s := (List.range 80).foldl (sha1Round w) h
  (List.range 5).map (fun i => mask32 (h.getD i 0 + s.getD i 0))

/-- SHA-1 of a byte list (FIPS 180-4). -/
def sha1 (msg : List Nat) : List Nat :=
  let padded := msg ++ 0x80 :: (List.replicate (padZeroCount msg.length) 0 ++ lenBytesBE (8 * msg.length))
  concatBytes (((chunks64 padded).foldl sha1Compress sha1InitH).map wordToBytesBE)

/-- The MD5 sine-derived constant table T (RFC 1321), in decimal. -/
def md5K : List Nat :=
  [3614090360, 3905402710, 606105819, 3250441966, 4118548399, 1200080426,
   2821735955, 4249261313, 1770035416, 2336552879, 4294925233, 2304563134,
   1804603682, 4254626195, 2792965006, 1236535329, 4129170786, 3225465664,
   643717713, 3921069994, 3593408605, 38016083, 3634488961, 3889429448,
   568446438, 3275163606, 4107603335, 1163531501, 2850285829, 4243563512,
   1735328473, 2368359562, 4294588738, 2272392833, 1839030562, 4259657740,
   2763975236, 1272893353, 4139469664, 3200236656, 681279174, 3936430074,
   3572445317, 76029189, 3654602809, 3873151461, 530742520, 3299628645,
   4096336452, 1126891415, 2878612391, 4237533241, 1700485571, 2399980690,
   4293915773, 2240044497, 1873313359, 4264355552, 2734768916, 1309151649,
   4149444226, 3174756917, 718787259, 3951481745]

/-- The MD5 per-round left-rotation amounts (RFC 1321). -/
def md5S : List Nat :=
  [7, 12, 17, 22, 7, 12, 17, 22, 7, 12, 17, 22, 7, 12, 17, 22,
   5, 9, 14, 20, 5, 9, 14, 20, 5, 9, 14, 20, 5, 9, 14, 20,
   4, 11, 16, 23, 4, 11, 16, 23, 4, 11, 16, 23, 4, 11, 16, 23,
   6, 10, 15, 21, 6, 10, 15, 21, 6, 10, 15, 21, 6, 10, 15, 21]

/-- One MD5 operation over the four working words (RFC 1321 §3.4). -/
def md5Round (m : List Nat) (s : List Nat) (i : Nat) : List Nat :=
  match s with
  | [a, b, c, d] =>
    let fg : Nat × Nat :=
      if i < 16 then ((b &&& c) ||| (not32 b &&& d), i)
      else if i < 32 then ((d &&& b) ||| (not32 d &&& c), (5 * i + 1) % 16)
      else if i < 48 then (b ^^^ c ^^^ d, (3 * i + 5) % 16)
      else (c ^^^ (b ||| not32 d), 7 * i % 16)
    let v := mask32 (a + fg.1 + md5K.getD i 0 + m.getD fg.2 0)
    [d, mask32 (b + rotl32 (md5S.getD i 0) v), b, c]
  | _ => s

/-- MD5 compression of one 64-byte block into the chaining state. -/
def md5Compress (h : List Nat) (block : List Nat) : List Nat :=
  let m := bytesToWordsLE block
  let s := (List.range 64).foldl (md5Round m) h
  (List.range 4).map (fun i => mask32 (h.getD i 0 + s.getD i 0))

/-- The MD5 initial state (RFC 1321 §3.3), in decimal. -/
def md5InitH : List Nat := [1732584193, 4023233417, 2562383102, 271733878]

/-- MD5 of a byte list (RFC 1321). -/
def md5 (msg : List Nat) : List Nat :=
  let padded := msg ++ 0x80 :: (List.replicate (padZeroCount msg.length) 0 ++ lenBytesLE (8 * msg.length))
  concatBytes (((chunks64 padded).foldl md5Compress md5InitH).map wordToBytesLE)

/-- HMAC-SHA-256 (RFC 2104, block size 64), as Go's `crypto/hmac` with
`sha256.New` computes it. -/
def hmacSha256 (key msg : List Nat) : List Nat :=
  let k := if 64 < key.length then sha256 key else key
  let k0 := k ++ List.replicate (64 - k.length) 0
  let ipad := k0.map (fun b => b ^^^ 0x36)
  let opad := k0.map (fun b => b ^^^ 0x5c)
  sha256 (opad ++ sha256 (ipad ++ msg))

set_option maxRecDepth 100000

/-- SHA-256 test vector (FIPS 180-4 appendix): the digest of "abc". -/
theorem sha256_vector_abc :
    hexEncode (sha256 (strBytes "abc"))
      = "ba7816bf8f01cfea414140de5dae2223b00361a396177a9cb410ff61f20015ad" := by decide

/-- SHA-1 test vector (FIPS 180-4 appendix): the digest of "abc". -/
theorem sha1_vector_abc :
    hexEncode (sha1 (strBytes "abc"))
      = "a9993e364706816aba3e25717850c26c9cd0d89d" := by decide

/-- MD5 test vector (RFC 1321 appendix A.5): the digest of "abc". -/
theorem md5_vector_abc :
    hexEncode (md5 (strBytes "abc"))
      = "900150983cd24fb0d6963f7d28e17f72" := by decide

/-- HMAC-SHA-256 test vector (RFC 4231 test case 2): key "Jefe", data
"what do ya want for nothing?". -/
theorem hmacSha256_vector_rfc4231 :
    hexEncode (hmacSha256 (strBytes "Jefe") (strBytes "what do ya want for nothing?"))
      = "5bdcc146bf60754e6a042426089575c75a003f089d2739839dec58b964ec3843" := by decide

/-- Go's `unicode.IsSpace`: the Unicode White_Space property. -/
def goIsSpace (c : Char) : Bool :=
  let n := c.toNat
  n == 0x20 || (0x9 ≤ n && n ≤ 0xD) || n == 0x85 || n == 0xA0 ||
  n == 0x1680 || (0x2000 ≤ n && n ≤ 0x200A) || n == 0x2028 || n == 0x2029 ||
  n == 0x202F || n == 0x205F || n == 0x3000

/-- Go's `strings.TrimSpace`: strip leading and trailing white space. -/
def goTrimSpace (s : String) : String :=
  String.mk (((s.data.dropWhile goIsSpace).reverse.dropWhile goIsSpace).reverse)

/-- Go's `strings.Join`: concatenate with the separator between elements. -/
def stringsJoin : List String → String → String
  | [], _ => ""
  | [x], _ => x
  | x :: y :: xs, sep => x ++ sep ++ stringsJoin (y :: xs) sep

/-- Embedded from `smh.go`: the protocol version constant. -/
def Version : String := "0.0.3"

/-- Embedded from `smh.go`: the access-key signature header name. -/
def RequestSignatureHeaderAccessKey : String := "X-Access-Key"

/-- Embedded from `smh.go`: the signature header name. -/
def RequestSignatureHeaderSignature : String := "X-Signature"

/-- Embedded from `smh.go`: the timestamp header name. -/
def RequestSignatureHeaderTimestamp : String := "X-Timestamp"

/-- Embedded from `smh.go`: the nonce header name. -/
def RequestSignatureHeaderNonce : String := "X-Nonce"

/-- Embedded from `smh.go` `GetHeader`: the default request headers. -/
def GetHeader : List (String × String) :=
  [("app_lang", ""), ("lang", ""), ("app_id", ""), ("time_zone", ""),
   ("Content-Type", "application/json")]

/-- Embedded from `smh.go` `calculateSignature`: empty secret yields an empty
signature, otherwise hex HMAC-SHA-256 of the newline-joined canonical
string. -/
def calculateSignature (secret method path timestamp bodyHash : String) : String :=
  if secret = "" then ""
  else
    let payload := stringsJoin [method, path, timestamp, bodyHash] "\n"
    hexEncode (hmacSha256 (strBytes secret) (strBytes payload))

/-- Embedded from `smh.go` `calculateSignatureRequestBodyHash`: the hex
SHA-256 of the raw body bytes, paired with the (always nil) error. -/
def calculateSignatureRequestBodyHash (dataBytes : List Nat) : String × Option String :=
  (hexEncode (sha256 dataBytes), none)

/-- Embedded from `smh.go` `httpPost` lines 332-341: the four signature
headers added to the outbound request, in the order they are added. The
timestamp and nonce are effectful inputs (clock, RNG) passed explicitly. -/
def signatureHeaders (appSecret appID requestURI timestamp nonce : String)
    (jsonData : List Nat) : List (String × String) :=
  [(RequestSignatureHeaderAccessKey, appID),
   (RequestSignatureHeaderTimestamp, timestamp),
   (RequestSignatureHeaderNonce, nonce),
   (RequestSignatureHeaderSignature,
     calculateSignature appSecret "POST" requestURI timestamp
       (calculateSignatureRequestBodyHash jsonData).1)]

/-- Embedded from `smh.go` `RespBody[T]`: the generic response envelope.
A Go decode that leaves a field untouched corresponds to the zero value
being stored here by the oracle. -/
structure RespBody (T : Type) where
  code : Int
  message : String
  result : T
  msgDetails : String

/-- Outcome of `json.Unmarshal(body, &result)` in `httpPost`: either a
successful decode, or a failure that leaves a partially-decoded envelope
(Go fills fields it managed to parse and leaves the rest at zero values). -/
inductive Decode (T : Type) where
  | ok (body : RespBody T)
  | err (partialBody : RespBody T)

/-- Outcome of `client.Do` plus `io.ReadAll` in `httpPost`: a transport
error, a body-read error, or a status code with the decoded body. -/
inductive Exchange (T : Type) where
  | transportErr (errText : String)
  | readErr (errText : String)
  | response (statusCode : Nat) (dec : Decode T)

/-- The effectful inputs of one `httpPost` invocation: the result of
`json.Marshal` (none on error), whether `http.NewRequest` succeeded, and
the HTTP exchange outcome. -/
structure CallEnv (T : Type) where
  marshaled : Option (List Nat)
  requestOk : Bool
  exchange : Exchange T

/-- Embedded from `smh.go` `httpPost` lines 318-380: classify the call
outcome into a typed result pointer (Option) and a message string,
following the source's branch order exactly. -/
def httpPost (T : Type) (env : CallEnv T) : Option T × String :=
  match env.marshaled with
  | none => (none, "Data format error (invalid JSON data). Please try again later.")
  | some _ =>
    match env.requestOk with
    | false => (none, "Failed to create HTTP request: invalid parameters or request body.")
    | true =>
      match env.exchange with
      | Exchange.transportErr e =>
          (none, "An error occurred while requesting the cloud service. " ++ e)
      | Exchange.readErr e => (none, "Failed to read response: " ++ e)
      | Exchange.response statusCode dec =>
        if statusCode ≠ 200 then
          (none, "API call failed. status code: " ++ toString statusCode)
        else
          match dec with
          | Decode.err pb =>
            if pb.message ≠ "" then (none, pb.message)
            else (none, "The received data is not in a valid JSON format. Please try again later.")
          | Decode.ok rb =>
            if rb.code = 0 then (some rb.result, "")
            else if rb.msgDetails ≠ "" then (none, rb.msgDetails)
            else (none, rb.message)

/-- Embedded from `smh.go` `Post`: forward `httpPost`, discarding the
response on a non-empty message. -/
def Post (T : Type) (env : CallEnv T) : Option T × String :=
  let r := httpPost T env
  if r.2 ≠ "" then (none, r.2) else (r.1, "")

/-- Embedded from `smh.go` `CallService`: build the request envelope (the
request id and payload only feed the marshalled bytes, which the oracle in
`env` already carries) and delegate to `Post`. -/
def CallService (T : Type) (_serviceName : String) (env : CallEnv T) : Option T × String :=
  Post T env

/-- Embedded from `smh.go` `SwitchHome`. The second component records
whether a network call (`CallService`) was attempted. -/
def SwitchHome (env : CallEnv String) (homeName : String) : (Bool × String) × Bool :=
  if goTrimSpace homeName = "" then ((false, "Home name cannot be empty"), false)
  else
    let r := CallService String "SwitchHome" env
    if r.2 ≠ "" then ((false, r.2), true)
    else
      match r.1 with
      | none => ((false, "Home switch failed: no response from server"), true)
      | some _ => ((true, ""), true)

/-- Embedded from `smh.go` `RunScenes` (the source instantiates
`CallService[any]`; the result type is a parameter here). The second
component records whether a network call was attempted. -/
def RunScenes (α : Type) (env : CallEnv α) (scenes : List Int) : String × Bool :=
  if scenes.length = 0 then ("Scene list cannot be empty", false)
  else
    let r := CallService α "RunScenes" env
    if r.2 ≠ "" then (r.2, true) else ("Scene executed successfully", true)

/-- Embedded from `smh.go` `GetHomes`: `none` in the first component models
Go's nil slice return. -/
def GetHomes (env : CallEnv (List String)) : Option (List String) × String :=
  let r := CallService (List String) "GetHomes" env
  if r.2 ≠ "" then (none, r.2)
  else
    match r.1 with
    | none => (none, "No homes available")
    | some homes => (some homes, "")

/-- One entry of Go's `net.Interfaces()` as `genDeviceID` inspects it:
the up flag, the interface name, and the hardware address string (empty
when `len(i.HardwareAddr) == 0`). -/
structure NetInterface where
  up : Bool
  name : String
  hardwareAddr : String

/-- Go's `strings.HasPrefix` (for ASCII arguments the byte test coincides
with this character-list test). -/
def goStartsWith (s p : String) : Bool := p.data.isPrefixOf s.data

/-- Embedded from `smh.go` `genDeviceID`'s interface loop: the MAC of the
first up, non-loopback interface with a non-empty hardware address. -/
def pickMac : List NetInterface → String
  | [] => ""
  | i :: rest =>
    if i.up && !(goStartsWith i.name "lo") && i.hardwareAddr ≠ "" then i.hardwareAddr
    else pickMac rest

/-- Embedded from `smh.go` `genDeviceID`. The interface enumeration (none
models a `net.Interfaces()` error), the fallback UUID, the hostname and the
OS/architecture strings are effectful inputs passed explicitly. -/
def genDeviceID (ifaces : Option (List NetInterface))
    (fallbackUUID hostname goos goarch : String) : String :=
  let macAddr0 := match ifaces with | none => "" | some l => pickMac l
  let chosen : String × String :=
    if macAddr0 = "" then (fallbackUUID, "mcp1.") else (macAddr0, "mcp0.")
  let osInfo := goos ++ "-" ++ goarch
  let baseInfo := stringsJoin [chosen.1, hostname, osInfo] "-"
  chosen.2 ++ hexEncode (sha1 (strBytes baseInfo))

/-- Embedded from `smh.go` `md5Hash`: hex MD5 of a string's bytes. -/
def md5Hash (str : String) : String := hexEncode (md5 (strBytes str))

/-- Embedded from `smh.go` `genAppID` (the global `DeviceID` it reads is a
parameter here). -/
def genAppID (deviceID : String) : String := "mcp-" ++ md5Hash ("mcp-" ++ deviceID)

/-- Appending to a non-empty string never yields the empty string. -/
theorem string_append_ne_empty (s t : String) (h : s ≠ "") : s ++ t ≠ "" := by
  intro he
  apply h
  have hd : s.data ++ t.data = [] := by
    have := congrArg String.data he
    simpa [String.data_append] using this
  have hs : s.data = [] := (List.append_eq_nil.mp hd).1
  cases s with
  | mk l => simp_all [String.ext_iff]

/-- Every branch of `httpPost` that produces a non-empty message produces a
nil result. -/
theorem httpPost_none_of_message_ne (T : Type) (env : CallEnv T)
    (h : (httpPost T env).2 ≠ "") : (httpPost T env).1 = none := by
  obtain ⟨m, rOk, ex⟩ := env
  cases m with
  | none => rfl
  | some jd =>
    cases rOk with
    | false => rfl
    | true =>
      cases ex with
      | transportErr e => rfl
      | readErr e => rfl
      | response status dec =>
        by_cases hs : status = 200
        · subst hs
          cases dec with
          | err pb => by_cases hm : pb.message = "" <;> simp [httpPost, hm]
          | ok rb =>
            by_cases hc : rb.code = 0
            · exact absurd (by simp [httpPost, hc]) h
            · by_cases hd : rb.msgDetails = "" <;> simp [httpPost, hc, hd]
        · simp [httpPost, hs]

/-- C2: a 200 response whose envelope decodes with `code == 0` makes the
call return the decoded typed result together with an empty message, at
both the `httpPost` and the `Post` level. -/
theorem httpPost_code_zero_success (T : Type) (jsonData : List Nat) (rb : RespBody T)
    (h : rb.code = 0) :
    httpPost T ⟨some jsonData, true, Exchange.response 200 (Decode.ok rb)⟩
        = (some rb.result, "") ∧
    Post T ⟨some jsonData, true, Exchange.response 200 (Decode.ok rb)⟩
        = (some rb.result, "") := by
  constructor
  · simp [httpPost, h]
  · simp [Post, httpPost, h]

/-- Witness for C2 at a concrete decoded envelope. -/
theorem httpPost_code_zero_success_witness :
    httpPost String ⟨some [123, 125], true, Exchange.response 200 (Decode.ok ⟨0, "", "ok", ""⟩)⟩
        = (some "ok", "") ∧
    Post String ⟨some [123, 125], true, Exchange.response 200 (Decode.ok ⟨0, "", "ok", ""⟩)⟩
        = (some "ok", "") :=
  httpPost_code_zero_success String [123, 125] ⟨0, "", "ok", ""⟩ rfl

/-- C3: a 200 response whose envelope decodes with `code != 0` makes the
call return a nil result, with `msgDetails` preferred over `message` as the
returned string, at both the `httpPost` and the `Post` level. -/
theorem httpPost_code_nonzero_failure (T : Type) (jsonData : List Nat) (rb : RespBody T)
    (h : rb.code ≠ 0) :
    httpPost T ⟨some jsonData, true, Exchange.response 200 (Decode.ok rb)⟩
        = (none, if rb.msgDetails ≠ "" then rb.msgDetails else rb.message) ∧
    Post T ⟨some jsonData, true, Exchange.response 200 (Decode.ok rb)⟩
        = (none, if rb.msgDetails ≠ "" then rb.msgDetails else rb.message) := by
  have h1 : httpPost T ⟨some jsonData, true, Exchange.response 200 (Decode.ok rb)⟩
      = (none, if rb.msgDetails ≠ "" then rb.msgDetails else rb.message) := by
    by_cases hd : rb.msgDetails = "" <;> simp [httpPost, h, hd]
  refine ⟨h1, ?_⟩
  by_cases hd : rb.msgDetails = ""
  · by_cases hm : rb.message = "" <;> simp [Post, h1, hd, hm]
  · simp [Post, h1, hd]

/-- Witness for C3: with `message` "m" and `msgDetails` "d" both non-empty
the call returns the detail "d". -/
theorem httpPost_code_nonzero_failure_witness :
    (7 : Int) ≠ 0 ∧
    httpPost String ⟨some [123, 125], true, Exchange.response 200 (Decode.ok ⟨7, "m", "r", "d"⟩)⟩
        = (none, "d") ∧
    Post String ⟨some [123, 125], true, Exchange.response 200 (Decode.ok ⟨7, "m", "r", "d"⟩)⟩
        = (none, "d") := by
  have h := httpPost_code_nonzero_failure String [123, 125] ⟨7, "m", "r", "d"⟩ (by decide)
  exact ⟨by decide, h.1, h.2⟩

/-- C8: a 200 response whose body fails to decode makes the call return a
nil result; a non-empty partially-decoded `message` field is surfaced,
otherwise the generic invalid-data message. -/
theorem httpPost_decode_failure (T : Type) (jsonData : List Nat) (pb : RespBody T) :
    httpPost T ⟨some jsonData, true, Exchange.response 200 (Decode.err pb)⟩
        = (none, if pb.message ≠ "" then pb.message
                 else "The received data is not in a valid JSON format. Please try again later.") := by
  by_cases hm : pb.message = "" <;> simp [httpPost, hm]

/-- C5: with an empty secret the signature is the empty string, and the four
signature headers are still attached to the request, the signature header
carrying the empty string as its value. -/
theorem calculateSignature_empty_secret_headers
    (method path timestamp bodyHash appID requestURI nonce : String) (jsonData : List Nat) :
    calculateSignature "" method path timestamp bodyHash = "" ∧
    (signatureHeaders "" appID requestURI timestamp nonce jsonData).length = 4 ∧
    (RequestSignatureHeaderAccessKey, appID)
        ∈ signatureHeaders "" appID requestURI timestamp nonce jsonData ∧
    (RequestSignatureHeaderTimestamp, timestamp)
        ∈ signatureHeaders "" appID requestURI timestamp nonce jsonData ∧
    (RequestSignatureHeaderNonce, nonce)
        ∈ signatureHeaders "" appID requestURI timestamp nonce jsonData ∧
    (RequestSignatureHeaderSignature, "")
        ∈ signatureHeaders "" appID requestURI timestamp nonce jsonData := by
  refine ⟨rfl, rfl, ?_, ?_, ?_, ?_⟩ <;> simp [signatureHeaders, calculateSignature]

/-- C6: the empty-input validations of `SwitchHome` and `RunScenes` return
their fixed messages before and without any network call (the Boolean
component records whether `CallService` was reached). -/
theorem validation_before_network (α : Type) (envS : CallEnv String) (envR : CallEnv α) :
    SwitchHome envS "" = ((false, "Home name cannot be empty"), false) ∧
    RunScenes α envR [] = ("Scene list cannot be empty", false) :=
  ⟨rfl, rfl⟩

/-- C1 counterexample: a 200 response decoding to an envelope with
`code == 7` and both message fields empty makes the call return a nil
result together with an empty message — the "never neither" half of the
claim fails. -/
theorem never_neither_counterexample :
    httpPost String ⟨some [123, 125], true, Exchange.response 200 (Decode.ok ⟨7, "", "", ""⟩)⟩
        = (none, "") ∧
    Post String ⟨some [123, 125], true, Exchange.response 200 (Decode.ok ⟨7, "", "", ""⟩)⟩
        = (none, "") := by
  constructor <;> rfl

/-- C1 amended: every invocation returns either a non-nil result with an
empty message or a nil result, and in the nil case the message is non-empty
except exactly when a 200 response decoded to an envelope with a non-zero
code and both message fields empty. -/
theorem httpPost_outcome_classification (T : Type) (env : CallEnv T) :
    ((httpPost T env).1.isSome = true ∧ (httpPost T env).2 = "") ∨
    ((httpPost T env).1 = none ∧ (httpPost T env).2 ≠ "") ∨
    ((httpPost T env).1 = none ∧ (httpPost T env).2 = "" ∧
      ∃ jsonData rb, env = ⟨some jsonData, true, Exchange.response 200 (Decode.ok rb)⟩ ∧
        rb.code ≠ 0 ∧ rb.message = "" ∧ rb.msgDetails = "") := by
  obtain ⟨m, rOk, ex⟩ := env
  cases m with
  | none =>
    refine Or.inr (Or.inl ⟨rfl, ?_⟩)
    show ("Data format error (invalid JSON data). Please try again later." : String) ≠ ""
    decide
  | some jd =>
    cases rOk with
    | false =>
      refine Or.inr (Or.inl ⟨rfl, ?_⟩)
      show ("Failed to create HTTP request: invalid parameters or request body." : String) ≠ ""
      decide
    | true =>
      cases ex with
      | transportErr e =>
        exact Or.inr (Or.inl ⟨rfl,
          string_append_ne_empty "An error occurred while requesting the cloud service. " e
            (by decide)⟩)
      | readErr e =>
        exact Or.inr (Or.inl ⟨rfl,
          string_append_ne_empty "Failed to read response: " e (by decide)⟩)
      | response status dec =>
        by_cases hs : status = 200
        · subst hs
          cases dec with
          | err pb =>
            by_cases hm : pb.message = ""
            · refine Or.inr (Or.inl ⟨?_, ?_⟩)
              · simp [httpPost, hm]
              · have he : (httpPost T ⟨some jd, true,
                    Exchange.response 200 (Decode.err pb)⟩).2
                    = "The received data is not in a valid JSON format. Please try again later." := by
                  simp [httpPost, hm]
                rw [he]; decide
            · refine Or.inr (Or.inl ⟨?_, ?_⟩) <;> simp [httpPost, hm]
          | ok rb =>
            by_cases hc : rb.code = 0
            · exact Or.inl (by simp [httpPost, hc])
            · by_cases hd : rb.msgDetails = ""
              · by_cases hm : rb.message = ""
                · refine Or.inr (Or.inr ⟨?_, ?_, jd, rb, rfl, hc, hm, hd⟩) <;>
                    simp [httpPost, hc, hd, hm]
                · refine Or.inr (Or.inl ⟨?_, ?_⟩) <;> simp [httpPost, hc, hd, hm]
              · refine Or.inr (Or.inl ⟨?_, ?_⟩) <;> simp [httpPost, hc, hd]
        · refine Or.inr (Or.inl ⟨?_, ?_⟩)
          · simp [httpPost, hs]
          · have he : (httpPost T ⟨some jd, true, Exchange.response status dec⟩).2
                = "API call failed. status code: " ++ toString status := by
              simp [httpPost, hs]
            rw [he]
            exact string_append_ne_empty "API call failed. status code: " (toString status)
              (by decide)

/-- C7: whenever a call of the signed RPC path (`httpPost`, and hence
`Post` and `CallService`, which forward its pair) produces a non-empty
message, the typed result is nil. -/
theorem nonempty_message_nil_result (T : Type) (serviceName : String) (env : CallEnv T)
    (h : (httpPost T env).2 ≠ "") :
    (httpPost T env).1 = none ∧
    Post T env = (none, (httpPost T env).2) ∧
    CallService T serviceName env = (none, (httpPost T env).2) := by
  refine ⟨httpPost_none_of_message_ne T env h, ?_, ?_⟩ <;> simp [CallService, Post, h]

/-- Witness for C7 at a concrete failing call (JSON marshalling failed). -/
theorem nonempty_message_nil_result_witness :
    (httpPost String ⟨none, true, Exchange.readErr ""⟩).2 ≠ "" ∧
    ((httpPost String ⟨none, true, Exchange.readErr ""⟩).1 = none ∧
     Post String ⟨none, true, Exchange.readErr ""⟩
        = (none, (httpPost String ⟨none, true, Exchange.readErr ""⟩).2) ∧
     CallService String "SwitchHome" ⟨none, true, Exchange.readErr ""⟩
        = (none, (httpPost String ⟨none, true, Exchange.readErr ""⟩).2)) :=
  ⟨by decide, nonempty_message_nil_result String "SwitchHome" ⟨none, true, Exchange.readErr ""⟩
    (by decide)⟩

/-- C4: for a non-empty secret, `calculateSignature` (a pure function of
its five string arguments) equals the hex HMAC-SHA-256 of the canonical
string joining method, path, timestamp and body hash with newlines, and the
body hash it is fed is the hex SHA-256 of the raw body bytes. -/
theorem calculateSignature_matches_hmac (secret method path timestamp : String)
    (body : List Nat) (h : secret ≠ "") :
    calculateSignature secret method path timestamp (calculateSignatureRequestBodyHash body).1
        = hexEncode (hmacSha256 (strBytes secret)
            (strBytes (method ++ "\n" ++ path ++ "\n" ++ timestamp ++ "\n"
              ++ hexEncode (sha256 body)))) ∧
    (calculateSignatureRequestBodyHash body).1 = hexEncode (sha256 body) := by
  refine ⟨?_, rfl⟩
  simp [calculateSignature, h, stringsJoin, calculateSignatureRequestBodyHash,
    String.append_assoc]

/-- Witness for C4 at a concrete secret, path, timestamp and body. -/
theorem calculateSignature_matches_hmac_witness :
    ("k" : String) ≠ "" ∧
    calculateSignature "k" "POST" "/echo/mcp/call" "1700000000"
        (calculateSignatureRequestBodyHash [123, 125]).1
      = hexEncode (hmacSha256 (strBytes "k")
          (strBytes ("POST" ++ "\n" ++ "/echo/mcp/call" ++ "\n" ++ "1700000000" ++ "\n"
            ++ hexEncode (sha256 [123, 125])))) :=
  ⟨by decide,
    (calculateSignature_matches_hmac "k" "POST" "/echo/mcp/call" "1700000000" [123, 125]
      (by decide)).1⟩

/-- C9: on the MAC path the device id is the "mcp0." prefix followed by the
hex SHA-1 of seed-hostname-os-arch, the fallback UUID is then irrelevant
(so repeated derivations on the same host with the same active interface
agree), on the fallback path the prefix is "mcp1.", and the application id
is "mcp-" followed by the hex MD5 of "mcp-" and the device id. -/
theorem genDeviceID_structure_and_determinism (ifaces : List NetInterface)
    (uuid1 uuid2 hostname goos goarch : String) (h : pickMac ifaces ≠ "") :
    genDeviceID (some ifaces) uuid1 hostname goos goarch
        = "mcp0." ++ hexEncode (sha1 (strBytes
            (pickMac ifaces ++ "-" ++ hostname ++ "-" ++ (goos ++ "-" ++ goarch)))) ∧
    genDeviceID (some ifaces) uuid1 hostname goos goarch
        = genDeviceID (some ifaces) uuid2 hostname goos goarch ∧
    genDeviceID none uuid1 hostname goos goarch
        = "mcp1." ++ hexEncode (sha1 (strBytes
            (uuid1 ++ "-" ++ hostname ++ "-" ++ (goos ++ "-" ++ goarch)))) ∧
    genAppID (genDeviceID (some ifaces) uuid1 hostname goos goarch)
        = "mcp-" ++ hexEncode (md5 (strBytes
            ("mcp-" ++ genDeviceID (some ifaces) uuid1 hostname goos goarch))) := by
  have e1 : ∀ u : String, genDeviceID (some ifaces) u hostname goos goarch
      = "mcp0." ++ hexEncode (sha1 (strBytes
          (pickMac ifaces ++ "-" ++ hostname ++ "-" ++ (goos ++ "-" ++ goarch)))) := by
    intro u
    simp [genDeviceID, h, stringsJoin, String.append_assoc]
  refine ⟨e1 uuid1, (e1 uuid1).trans (e1 uuid2).symm, ?_, ?_⟩
  · simp [genDeviceID, stringsJoin, String.append_assoc]
  · simp [genAppID, md5Hash]

/-- Witness for C9: a concrete up non-loopback interface fixes the id, so
two derivations with different fallback UUIDs coincide. -/
theorem genDeviceID_structure_and_determinism_witness :
    pickMac [⟨true, "eth0", "aa:bb:cc:dd:ee:ff"⟩] ≠ "" ∧
    genDeviceID (some [⟨true, "eth0", "aa:bb:cc:dd:ee:ff"⟩]) "u1" "host" "linux" "amd64"
      = genDeviceID (some [⟨true, "eth0", "aa:bb:cc:dd:ee:ff"⟩]) "u2" "host" "linux" "amd64" :=
  ⟨by decide,
    (genDeviceID_structure_and_determinism [⟨true, "eth0", "aa:bb:cc:dd:ee:ff"⟩]
      "u1" "u2" "host" "linux" "amd64" (by decide)).2.1⟩

/-- C10 counterexample: a 200 response with a non-zero code and both
message fields empty gives an empty message with a nil result, and the
supposedly unreachable nil-result-on-success branches of `GetHomes` and
`SwitchHome` are reached by exactly this response. -/
theorem nil_result_empty_message_reachable :
    httpPost (List String) ⟨some [110], true, Exchange.response 200 (Decode.ok ⟨5, "", [], ""⟩)⟩
        = (none, "") ∧
    GetHomes ⟨some [110], true, Exchange.response 200 (Decode.ok ⟨5, "", [], ""⟩)⟩
        = (none, "No homes available") ∧
    SwitchHome ⟨some [110], true, Exchange.response 200 (Decode.ok ⟨5, "", "", ""⟩)⟩ "X"
        = ((false, "Home switch failed: no response from server"), true) := by
  refine ⟨rfl, rfl, rfl⟩

/-- C10 amended: on `code == 0` the call indeed returns a non-nil pointer
to the decoded `Result` field (the zero value when the field was absent),
but an empty message does not imply a non-nil result: with `code != 0` and
both message fields empty the nil-result branches of `GetHomes` and
`SwitchHome` are reachable. -/
theorem code_zero_nonnil_branches_reachable (T : Type) (jsonData : List Nat)
    (rb : RespBody T) (c : Int) (hc0 : rb.code = 0) (hc : c ≠ 0) :
    httpPost T ⟨some jsonData, true, Exchange.response 200 (Decode.ok rb)⟩
        = (some rb.result, "") ∧
    GetHomes ⟨some jsonData, true, Exchange.response 200 (Decode.ok ⟨c, "", [], ""⟩)⟩
        = (none, "No homes available") ∧
    SwitchHome ⟨some jsonData, true, Exchange.response 200 (Decode.ok ⟨c, "", "", ""⟩)⟩ "home"
        = ((false, "Home switch failed: no response from server"), true) := by
  refine ⟨by simp [httpPost, hc0], ?_, ?_⟩
  · have hp : CallService (List String) "GetHomes"
        ⟨some jsonData, true, Exchange.response 200 (Decode.ok ⟨c, "", [], ""⟩)⟩ = (none, "") := by
      simp [CallService, Post, httpPost, hc]
    simp [GetHomes, hp]
  · have hp : CallService String "SwitchHome"
        ⟨some jsonData, true, Exchange.response 200 (Decode.ok ⟨c, "", "", ""⟩)⟩ = (none, "") := by
      simp [CallService, Post, httpPost, hc]
    unfold SwitchHome
    rw [if_neg (by decide : ¬ (goTrimSpace "home" = ""))]
    simp [hp]

/-- Witness for C10 at a concrete success envelope and a concrete failing
code. -/
theorem code_zero_nonnil_branches_reachable_witness :
    (0 : Int) = 0 ∧ (3 : Int) ≠ 0 ∧
    (httpPost String ⟨some [110], true, Exchange.response 200 (Decode.ok ⟨0, "", "z", ""⟩)⟩
        = (some "z", "") ∧
     GetHomes ⟨some [110], true, Exchange.response 200 (Decode.ok ⟨3, "", [], ""⟩)⟩
        = (none, "No homes available") ∧
     SwitchHome ⟨some [110], true, Exchange.response 200 (Decode.ok ⟨3, "", "", ""⟩)⟩ "home"
        = ((false, "Home switch failed: no response from server"), true)) :=
  ⟨rfl, by decide,
    code_zero_nonnil_branches_reachable String [110] ⟨0, "", "z", ""⟩ 3 rfl (by decide)⟩
